import Mathlib

/-!
Shallow embedding of the uPycomm Allen-Bradley PLC client library
(upycomm.py, classes `SLC` and `Logix`).

Byte strings are modelled as `List Nat`; every multi-byte integer is
little-endian, mirroring the struct format strings of the source.  The
TCP socket is modelled as a `transport` function from the transmitted
packet to an optional reply; `none` stands for a send/receive exception
or timeout.  Python exceptions caught by the broad handlers of the
source are modelled by `Option`/`Except` results.
-/

namespace Upycomm

/-- Little-endian image of a 16-bit integer, struct format <H. -/
def u16le (n : Nat) : List Nat := [n % 256, n / 256 % 256]

/-- Little-endian image of a 32-bit integer, struct format <I. -/
def u32le (n : Nat) : List Nat :=
  [n % 256, n / 256 % 256, n / 65536 % 256, n / 16777216 % 256]

/-- Little-endian image of a 64-bit integer, struct format <Q. -/
def u64le (n : Nat) : List Nat := u32le (n % 4294967296) ++ u32le (n / 4294967296)

/-- Little-endian image of a signed 32-bit integer, struct format <i. -/
def i32le (i : Int) : List Nat := u32le ((i % 4294967296).toNat)

/-- Decode struct.unpack of <H on the 2-byte slice at offset i; `none` when
the slice is short (struct.error in the source, caught by the handlers). -/
def u16leAt (l : List Nat) (i : Nat) : Option Nat :=
  match l[i]?, l[i+1]? with
  | some a, some b => some (a % 256 + 256 * (b % 256))
  | _, _ => none

/-- Decode struct.unpack of <I on the 4-byte slice at offset i; `none` when
the slice is short. -/
def u32leAt (l : List Nat) (i : Nat) : Option Nat :=
  match l[i]?, l[i+1]?, l[i+2]?, l[i+3]? with
  | some a, some b, some c, some d =>
    some (a % 256 + 256 * (b % 256) + 65536 * (c % 256) + 16777216 * (d % 256))
  | _, _, _, _ => none

/-- SLC file types supported by the driver (keys of PCCC_DATA_TYPE). -/
inductive FileType where
  | N7 | B3 | F8 | T4 | C5
  deriving DecidableEq

/-- File type codes (SLC.PCCC_DATA_TYPE). -/
def PCCC_DATA_TYPE : FileType → Nat
  | .N7 => 0x89
  | .B3 => 0x85
  | .F8 => 0x8A
  | .T4 => 0x86
  | .C5 => 0x87

/-- Data sizes in bytes (SLC.PCCC_DATA_SIZE). -/
def PCCC_DATA_SIZE : FileType → Nat
  | .N7 => 2
  | .B3 => 2
  | .F8 => 4
  | .T4 => 6
  | .C5 => 6

/-- Default file numbers, the file_numbers dictionaries of SLC.read and
SLC.write. -/
def fileNumberOf : FileType → Nat
  | .N7 => 7
  | .B3 => 3
  | .F8 => 8
  | .T4 => 4
  | .C5 => 5

/-- Mutable session state of an SLC driver instance that the embedded
operations touch.  socketOpen records whether socket.close() has been
called since connect. -/
structure SLCState where
  pccc_tns : Nat
  conn_sequence : Nat
  session_handle : Nat
  serial_number : Nat
  connected : Bool
  socketOpen : Bool
  deriving DecidableEq

/-- State set up by SLC.__init__ (with the fallback serial number used
when no hardware uid is available). -/
def slcInit : SLCState :=
  { pccc_tns := 1, conn_sequence := 2, session_handle := 0,
    serial_number := 0xAABBCCDD, connected := false, socketOpen := false }

/-- Data word transmitted by SLC.create_pccc_write_command: negative N7
values are converted to unsigned by adding 65536, then the word is
masked with 0xFFFF (Python value & 0xFFFF equals value mod 65536). -/
def write_data_word (file_type : FileType) (value : Int) : Nat :=
  ((if file_type = FileType.N7 ∧ value < 0 then value + 65536 else value) % 65536).toNat

/-- SLC.create_pccc_command: Execute PCCC read request (FNC 0xA2) and the
TNS increment it performs on the driver state. -/
def create_pccc_command (st : SLCState) (file_type : FileType)
    (file_number element element_count : Nat) : List Nat × SLCState :=
  let tns := st.pccc_tns
  let cip : List Nat :=
    [0x4B, 0x02, 0x20, 0x67, 0x24, 0x01, 0x07, 0x09, 0x10]
      ++ u32le st.serial_number ++ [0x0F]
      ++ u16le tns
      ++ [0x00, 0xA2, PCCC_DATA_SIZE file_type * element_count,
          file_number, PCCC_DATA_TYPE file_type]
      ++ u16le element
  (cip, { st with pccc_tns := (tns + 1) % 65536 })

/-- SLC.create_pccc_write_command: Execute PCCC write request (FNC 0xAB),
mask word 0xFFFF before the data word, and the TNS increment. -/
def create_pccc_write_command (st : SLCState) (file_type : FileType)
    (file_number element : Nat) (value : Int) : List Nat × SLCState :=
  let tns := st.pccc_tns
  let cip : List Nat :=
    [0x4B, 0x02, 0x20, 0x67, 0x24, 0x01, 0x07, 0x09, 0x10]
      ++ u32le st.serial_number ++ [0x0F]
      ++ u16le tns
      ++ [0x00, 0xAB, PCCC_DATA_SIZE file_type,
          file_number, PCCC_DATA_TYPE file_type]
      ++ u16le element
      ++ u16le 0xFFFF
      ++ u16le (write_data_word file_type value)
  (cip, { st with pccc_tns := (tns + 1) % 65536 })

/-- SLC.create_send_rr_data: 24-byte encapsulation header (command 0x006F,
zero sender context) followed by the CPF payload with a null address
item and an unconnected data item 0xB2. -/
def create_send_rr_data (session_handle : Nat) (cip_data : List Nat) : List Nat :=
  let packet_data : List Nat :=
    u32le 0 ++ u16le 0 ++ u16le 2 ++ u16le 0 ++ u16le 0
      ++ u16le 0xB2 ++ u16le cip_data.length ++ cip_data
  (u16le 0x6F ++ u16le packet_data.length ++ u32le session_handle
      ++ u32le 0 ++ List.replicate 8 0 ++ u32le 0) ++ packet_data

/-- SLC.send_rr_data_pccc: transmit and receive; replies shorter than 24
bytes and socket exceptions (transport none) both yield None. -/
def send_rr_data_pccc (st : SLCState) (transport : List Nat → Option (List Nat))
    (cip_data : List Nat) : Option (List Nat) :=
  match transport (create_send_rr_data st.session_handle cip_data) with
  | some resp => if 24 ≤ resp.length then some resp else none
  | none => none

/-- Scan loop of SLC.parse_pccc_response: search the remaining bytes for
the PCCC reply CMD byte 0x4F; on the first hit read DST, SRC, STS, fail
on STS not 0, and return the non-empty data tail. -/
def pccc_scan_cmd : List Nat → Option (List Nat)
  | [] => none
  | b :: rest =>
    if b = 0x4F then
      match rest with
      | _dst :: _src :: sts :: tail =>
        if sts ≠ 0 then none
        else if tail.isEmpty then none else some tail
      | _ => none
    else pccc_scan_cmd rest

/-- Item loop of SLC.parse_pccc_response over the CPF item list; out of
range indexing raises in the source and is caught, giving None. -/
def pccc_items (resp : List Nat) (offset : Nat) : Nat → Option (List Nat)
  | 0 => none
  | count + 1 =>
    if resp.length < offset + 4 then none
    else
      match u16leAt resp offset, u16leAt resp (offset + 2) with
      | some item_type, some item_length =>
        if item_type = 0xB1 ∨ item_type = 0xB2 then
          let o := offset + 4 + (if item_type = 0xB1 then 2 else 0)
          match resp[o + 2]? with
          | some status =>
            if status ≠ 0 then none
            else
              match resp[o + 3]? with
              | some ext => pccc_scan_cmd (resp.drop (o + 4 + ext))
              | none => none
          | none => none
        else pccc_items resp (offset + 4 + item_length) count
      | _, _ => none

/-- SLC.parse_pccc_response: skip the 24-byte encapsulation header plus
interface handle and timeout, then walk the CPF items. -/
def parse_pccc_response (resp : List Nat) : Option (List Nat) :=
  if resp.length < 10 then none
  else
    match u16leAt resp 30 with
    | some item_count => pccc_items resp 32 item_count
    | none => none

/-- Reinterpretation applied by SLC.read to the first word of the reply
data: N7 words above 32767 are shifted down by 65536. -/
def read_word_value (file_type : FileType) (w : Nat) : Int :=
  if file_type = FileType.N7 ∧ w > 32767 then (w : Int) - 65536 else (w : Int)

/-- Result of SLC.read together with the driver state it leaves behind. -/
structure ReadOutcome where
  value : Option Int
  state : SLCState
  deriving DecidableEq

/-- Reply handling of SLC.read: on a received response, parse it, require
at least two data bytes, decode the first little-endian word, and either
extract the requested bit or apply the signed N7 reinterpretation. -/
def slc_read_value (file_type : FileType) (bit_number : Option Nat)
    (response : Option (List Nat)) : Option Int :=
  match response with
  | none => none
  | some resp =>
    match parse_pccc_response resp with
    | some (b0 :: b1 :: _) =>
      let value := b0 % 256 + 256 * (b1 % 256)
      match bit_number with
      | some b => some (((value >>> b) &&& 1 : Nat) : Int)
      | none => some (read_word_value file_type value)
    | _ => none

/-- SLC.read: guard on connected, build the PCCC read (incrementing the
TNS), send it via Send RR Data, and decode the reply. -/
def slc_read (st : SLCState) (transport : List Nat → Option (List Nat))
    (file_type : FileType) (element_number : Nat) (bit_number : Option Nat)
    (element_count : Nat) : ReadOutcome :=
  if st.connected = false then ⟨none, st⟩
  else
    let file_number := fileNumberOf file_type
    let r := create_pccc_command st file_type file_number element_number element_count
    ⟨slc_read_value file_type bit_number (send_rr_data_pccc r.2 transport r.1), r.2⟩

/-- Result of SLC.write: the returned Bool, the driver state left behind,
and the PCCC command handed to the socket (none when nothing was sent). -/
structure WriteOutcome where
  ok : Bool
  state : SLCState
  transmitted : Option (List Nat)
  deriving DecidableEq

/-- SLC.write.  The bit branch of the source first calls self.read_tag,
but the SLC class defines no method read_tag (its read method is named
read; only the legacy SLCComm variant imported by the example scripts
has read_tag), so the attribute lookup raises AttributeError, the broad
handler catches it, and the method returns False with nothing
transmitted and the state untouched.  The word branch builds the write
command, sends it, and returns True whenever any reply of at least 24
bytes arrives; the parsed PCCC status is computed but never consulted. -/
def slc_write (st : SLCState) (transport : List Nat → Option (List Nat))
    (file_type : FileType) (element_number : Nat) (value : Int)
    (bit_number : Option Nat) : WriteOutcome :=
  if st.connected = false then ⟨false, st, none⟩
  else
    match bit_number with
    | some _ => ⟨false, st, none⟩
    | none =>
      let file_number := fileNumberOf file_type
      let r := create_pccc_write_command st file_type file_number element_number value
      ⟨(send_rr_data_pccc r.2 transport r.1).isSome, r.2, some r.1⟩

/-- SLC.register_session reply handling: require at least 8 bytes, decode
command and status (the status slice needs 12 bytes or struct.unpack
raises, giving False), succeed only on command 0x0065 with status 0 and
latch the reply's session handle. -/
def slc_register_session (resp : List Nat) : Option Nat :=
  if 8 ≤ resp.length then
    match u16leAt resp 0, u32leAt resp 8 with
    | some command, some status =>
      if command = 0x65 ∧ status = 0 then u32leAt resp 4 else none
    | _, _ => none
  else none

/-- State transition performed by one PCCC request build, used to iterate
the TNS counter of a session. -/
def slcStep (st : SLCState) : SLCState :=
  (create_pccc_command st FileType.N7 7 0 1).2

/-- TNS value carried by the k-th PCCC request of a fresh session (the
requests are numbered from 0). -/
def tnsUsed (k : Nat) : Nat := (slcStep^[k] slcInit).pccc_tns

/-- Session state of a Logix driver instance. -/
structure LogixState where
  slot : Nat
  use_routing : Bool
  session_handle : Nat
  connected : Bool
  socketOpen : Bool
  deriving DecidableEq

/-- Logix.register_session reply handling: the source only checks that the
reply has at least 28 bytes and latches the handle; it never inspects
the reply's command or status fields. -/
def logix_register_session (resp : List Nat) : Option Nat :=
  if 28 ≤ resp.length then u32leAt resp 4 else none

/-- Sender context of the Logix driver, the eight ASCII bytes of
_pycomm_. -/
def logix_context : List Nat := [0x5F, 0x70, 0x79, 0x63, 0x6F, 0x6D, 0x6D, 0x5F]

/-- Packet built by Logix.send_rr_data: encapsulation header (0x006F) with
the _pycomm_ context, then the CPF list with a null address item and an
unconnected data item. -/
def logix_send_packet (session_handle : Nat) (cip_data : List Nat) : List Nat :=
  let cpf : List Nat :=
    u32le 0 ++ u16le 0 ++ u16le 2 ++ u16le 0 ++ u16le 0
      ++ u16le 0xB2 ++ u16le cip_data.length ++ cip_data
  u16le 0x6F ++ u16le cpf.length ++ u32le session_handle
    ++ u32le 0 ++ logix_context ++ u32le 0 ++ cpf

/-- Logix.send_rr_data: transmit and receive; replies must be strictly
longer than 24 bytes, and socket exceptions give None. -/
def logix_send_rr_data (st : LogixState) (transport : List Nat → Option (List Nat))
    (cip_data : List Nat) : Option (List Nat) :=
  match transport (logix_send_packet st.session_handle cip_data) with
  | some resp => if 24 < resp.length then some resp else none
  | none => none

/-- Logix.build_tag_path: ANSI extended symbol segment 0x91, length byte,
tag bytes, padded to a word boundary. -/
def build_tag_path (tag_bytes : List Nat) : List Nat :=
  [0x91, tag_bytes.length] ++ tag_bytes
    ++ (if tag_bytes.length % 2 = 1 then [0x00] else [])

/-- Logix.wrap_with_routing: with use_routing the inner command is wrapped
in an Unconnected Send (0x52) to the Connection Manager, followed
immediately (no pad byte) by the one-word route path to the backplane
slot; without routing the command passes through unchanged. -/
def wrap_with_routing (st : LogixState) (cip_command : List Nat) : List Nat :=
  if st.use_routing = false then cip_command
  else
    [0x52, 0x02, 0x20, 0x06, 0x24, 0x01, 0x0A, 0x05]
      ++ u16le cip_command.length ++ cip_command
      ++ [0x01, 0x00, 0x20, 0x02, 0x24, st.slot]

/-- Wrapper following the SPEC text for backplane routing, including the
pad byte the spec inserts after an odd-length inner command; declared
only for comparison with wrap_with_routing, which is translated from
the code. -/
def spec_routing_wrapper (slot : Nat) (inner : List Nat) : List Nat :=
  [0x52, 0x02, 0x20, 0x06, 0x24, 0x01, 0x0A, 0x05]
    ++ u16le inner.length ++ inner
    ++ (if inner.length % 2 = 1 then [0x00] else [])
    ++ [0x01, 0x00, 0x20, 0x02, 0x24, slot]

/-- Read Tag service request built by Logix.read: service 0x4C, path size
in words, symbol path, element count. -/
def read_tag_command (tag_bytes : List Nat) (element_count : Nat) : List Nat :=
  let tag_path := build_tag_path tag_bytes
  [0x4C, tag_path.length / 2] ++ tag_path ++ u16le element_count

/-- CIP request transmitted by Logix.read for a tag, routing included. -/
def logix_read_request (st : LogixState) (tag_bytes : List Nat)
    (element_count : Nat) : List Nat :=
  wrap_with_routing st (read_tag_command tag_bytes element_count)

/-- Values produced by Logix.decode_value.  REAL carries the 32-bit
little-endian image of the IEEE-754 payload; the floating-point
interpretation itself is not modelled. -/
inductive CipValue where
  | bool (b : Bool)
  | int (i : Int)
  | real (bits : Nat)
  deriving DecidableEq

/-- Logix.decode_value: decode the value bytes according to the CIP data
type code.  The source handles exactly 0xC1, 0xC2, 0xC3, 0xC4, 0xC7,
0xC8 and 0xCA and returns None for every other code; short data raises
in struct.unpack and is caught by the calling parser, modelled as
none. -/
def decode_value (data_type : Nat) (data : List Nat) : Option CipValue :=
  if data_type = 0xC1 then
    match data with
    | b :: _ => some (CipValue.bool (b % 256 ≠ 0))
    | [] => none
  else if data_type = 0xC2 then
    match data with
    | b :: _ =>
      let w := b % 256
      some (CipValue.int (if 128 ≤ w then (w : Int) - 256 else (w : Int)))
    | [] => none
  else if data_type = 0xC3 then
    match data with
    | b0 :: b1 :: _ =>
      let w := b0 % 256 + 256 * (b1 % 256)
      some (CipValue.int (if 32768 ≤ w then (w : Int) - 65536 else (w : Int)))
    | _ => none
  else if data_type = 0xC4 then
    match data with
    | b0 :: b1 :: b2 :: b3 :: _ =>
      let w := b0 % 256 + 256 * (b1 % 256) + 65536 * (b2 % 256) + 16777216 * (b3 % 256)
      some (CipValue.int (if 2147483648 ≤ w then (w : Int) - 4294967296 else (w : Int)))
    | _ => none
  else if data_type = 0xC7 then
    match data with
    | b0 :: b1 :: _ => some (CipValue.int ((b0 % 256 + 256 * (b1 % 256) : Nat) : Int))
    | _ => none
  else if data_type = 0xC8 then
    match data with
    | b0 :: b1 :: b2 :: b3 :: _ =>
      some (CipValue.int ((b0 % 256 + 256 * (b1 % 256) + 65536 * (b2 % 256)
        + 16777216 * (b3 % 256) : Nat) : Int))
    | _ => none
  else if data_type = 0xCA then
    match data with
    | b0 :: b1 :: b2 :: b3 :: _ =>
      some (CipValue.real (b0 % 256 + 256 * (b1 % 256) + 65536 * (b2 % 256)
        + 16777216 * (b3 % 256)))
    | _ => none
  else none

/-- Item loop of Logix.parse_read_response: find the 0xB2 item, unwrap a
routed 0xD2 reply (skipping its status and extended-status words) or
take the direct reply; on service 0xCC with status 0 decode the value,
on a failed embedded routed reply continue with the next item, on any
other direct reply return None. -/
def read_response_items (resp : List Nat) (offset : Nat) : Nat → Option CipValue
  | 0 => none
  | count + 1 =>
    match u16leAt resp offset, u16leAt resp (offset + 2) with
    | some item_type, some item_length =>
      if item_type = 0xB2 then
        let o := offset + 4
        match resp[o]?, resp[o + 2]? with
        | some service_reply, some status =>
          if service_reply = 0xD2 then
            match resp[o + 3]? with
            | some ext =>
              let e := o + 4 + 2 * ext
              match resp[e]?, resp[e + 2]? with
              | some s2, some st2 =>
                if s2 = 0xCC ∧ st2 = 0 then
                  match u16leAt resp (e + 4) with
                  | some data_type => decode_value data_type (resp.drop (e + 6))
                  | none => none
                else read_response_items resp (o + item_length) count
              | _, _ => none
            | none => none
          else if service_reply = 0xCC ∧ status = 0 then
            match u16leAt resp (o + 4) with
            | some data_type => decode_value data_type (resp.drop (o + 6))
            | none => none
          else none
        | _, _ => none
      else read_response_items resp (offset + 4 + item_length) count
    | _, _ => none

/-- Logix.parse_read_response: skip the encapsulation header, interface
handle and timeout and walk the CPF items. -/
def parse_read_response (resp : List Nat) : Option CipValue :=
  match u16leAt resp 30 with
  | some item_count => read_response_items resp 32 item_count
  | none => none

/-- Item loop of the inline parser of Logix._read_tag_type: like the read
parser but it only extracts the data type code, and a failed direct
reply falls through to the next item instead of returning. -/
def tag_type_items (resp : List Nat) (offset : Nat) : Nat → Option Nat
  | 0 => none
  | count + 1 =>
    match u16leAt resp offset, u16leAt resp (offset + 2) with
    | some item_type, some item_length =>
      if item_type = 0xB2 then
        let o := offset + 4
        match resp[o]?, resp[o + 2]? with
        | some service_reply, some status =>
          if service_reply = 0xD2 then
            match resp[o + 3]? with
            | some ext =>
              let e := o + 4 + 2 * ext
              match resp[e]?, resp[e + 2]? with
              | some s2, some st2 =>
                if s2 = 0xCC ∧ st2 = 0 then u16leAt resp (e + 4)
                else tag_type_items resp (o + item_length) count
              | _, _ => none
            | none => none
          else if service_reply = 0xCC ∧ status = 0 then u16leAt resp (o + 4)
          else tag_type_items resp (o + item_length) count
        | _, _ => none
      else tag_type_items resp (offset + 4 + item_length) count
    | _, _ => none

/-- Logix._read_tag_type: issue a one-element Read Tag for the tag and
extract the data type code of the reply; None on any failure. -/
def logix_read_type (st : LogixState) (transport : List Nat → Option (List Nat))
    (tag_bytes : List Nat) : Option Nat :=
  let cip_data := wrap_with_routing st (read_tag_command tag_bytes 1)
  match logix_send_rr_data st transport cip_data with
  | some resp =>
    match u16leAt resp 30 with
    | some item_count => tag_type_items resp 32 item_count
    | none => none
  | none => none

/-- Item loop of Logix.parse_write_response: success exactly on service
0xCD with status 0, direct or embedded in a routed 0xD2 reply. -/
def write_response_items (resp : List Nat) (offset : Nat) : Nat → Bool
  | 0 => false
  | count + 1 =>
    match u16leAt resp offset, u16leAt resp (offset + 2) with
    | some item_type, some item_length =>
      if item_type = 0xB2 then
        let o := offset + 4
        match resp[o]?, resp[o + 2]? with
        | some service_reply, some status =>
          if service_reply = 0xD2 then
            match resp[o + 3]? with
            | some ext =>
              let e := o + 4 + 2 * ext
              match resp[e]?, resp[e + 2]? with
              | some s2, some st2 => if s2 = 0xCD ∧ st2 = 0 then true else false
              | _, _ => false
            | none => false
          else if service_reply = 0xCD ∧ status = 0 then true
          else false
        | _, _ => false
      else write_response_items resp (offset + 4 + item_length) count
    | _, _ => false

/-- Logix.parse_write_response. -/
def parse_write_response (resp : List Nat) : Bool :=
  match u16leAt resp 30 with
  | some item_count => write_response_items resp 32 item_count
  | none => false

/-- Python values the Logix write path accepts.  A float is carried as
the opaque little-endian bit image the struct float formats would
produce (32-bit for REAL); the IEEE-754 conversion itself is not
modelled. -/
inductive PyValue where
  | bool (b : Bool)
  | int (i : Int)
  | float (bits : Nat)
  deriving DecidableEq

/-- Python truthiness of a value, used by the forced BOOL encoding
(1 if value else 0).  Both float zeros are falsy. -/
def pyTruthy : PyValue → Bool
  | .bool b => b
  | .int i => i ≠ 0
  | .float bits => bits ≠ 0 && bits ≠ 0x80000000

/-- View of a Python value as an integer for the struct integer formats;
bool is an int subclass in Python, floats are rejected by struct. -/
def pyToInt : PyValue → Option Int
  | .bool b => some (if b then 1 else 0)
  | .int i => some i
  | .float _ => none

/-- Forced-type branch of Logix.encode_value: each struct format checks
its own range and raises outside it (error).  The REAL and LREAL
branches accept only the abstract float payload since int-to-float
conversion is not modelled; no theorem below rests on them. -/
def encode_forced (value : PyValue) (t : Nat) : Except Unit (List Nat × Nat) :=
  if t = 0xC1 then .ok ([if pyTruthy value then 1 else 0], 0xC1)
  else if t = 0xC2 then
    match pyToInt value with
    | some i => if -128 ≤ i ∧ i ≤ 127 then .ok ([(i % 256).toNat], 0xC2) else .error ()
    | none => .error ()
  else if t = 0xC3 then
    match pyToInt value with
    | some i => if -32768 ≤ i ∧ i ≤ 32767 then .ok (u16le ((i % 65536).toNat), 0xC3)
                else .error ()
    | none => .error ()
  else if t = 0xC4 then
    match pyToInt value with
    | some i => if -2147483648 ≤ i ∧ i ≤ 2147483647 then .ok (i32le i, 0xC4)
                else .error ()
    | none => .error ()
  else if t = 0xC5 then
    match pyToInt value with
    | some i => if -9223372036854775808 ≤ i ∧ i ≤ 9223372036854775807 then
                  .ok (u64le ((i % 18446744073709551616).toNat), 0xC5)
                else .error ()
    | none => .error ()
  else if t = 0xC6 then
    match pyToInt value with
    | some i => if 0 ≤ i ∧ i ≤ 255 then .ok ([i.toNat], 0xC6) else .error ()
    | none => .error ()
  else if t = 0xC7 then
    match pyToInt value with
    | some i => if 0 ≤ i ∧ i ≤ 65535 then .ok (u16le i.toNat, 0xC7) else .error ()
    | none => .error ()
  else if t = 0xC8 then
    match pyToInt value with
    | some i => if 0 ≤ i ∧ i ≤ 4294967295 then .ok (u32le i.toNat, 0xC8) else .error ()
    | none => .error ()
  else if t = 0xC9 then
    match pyToInt value with
    | some i => if 0 ≤ i ∧ i ≤ 18446744073709551615 then .ok (u64le i.toNat, 0xC9)
                else .error ()
    | none => .error ()
  else if t = 0xCA then
    match value with
    | .float bits => .ok (u32le bits, 0xCA)
    | _ => .error ()
  else if t = 0xCB then
    match value with
    | .float bits => .ok (u64le bits, 0xCB)
    | _ => .error ()
  else .error ()

/-- Logix.encode_value: forced type when given, otherwise the default
encoding chosen from the Python type of the value: bool as BOOL 0xC1,
int as DINT 0xC4 after a range check that raises ValueError outside
the signed 32-bit range, float as REAL 0xCA. -/
def encode_value (value : PyValue) (force_type : Option Nat) :
    Except Unit (List Nat × Nat) :=
  match force_type with
  | some t => encode_forced value t
  | none =>
    match value with
    | .bool b => .ok ([if b then 1 else 0], 0xC1)
    | .int i =>
      if -2147483648 ≤ i ∧ i ≤ 2147483647 then .ok (i32le i, 0xC4)
      else .error ()
    | .float bits => .ok (u32le bits, 0xCA)

/-- Write Tag service request built by Logix.write: service 0x4D, path,
data type, element count 1, encoded data. -/
def write_tag_command (tag_bytes : List Nat) (data_type : Nat)
    (encoded : List Nat) : List Nat :=
  let tag_path := build_tag_path tag_bytes
  [0x4D, tag_path.length / 2] ++ tag_path ++ u16le data_type ++ u16le 1 ++ encoded

/-- Result of Logix.write: the returned Bool and the CIP request handed
to the socket (none when the write aborted before sending). -/
structure LogixWriteOutcome where
  ok : Bool
  transmitted : Option (List Nat)
  deriving DecidableEq

/-- Logix.write: guard on connected; with no data_type and auto_detect,
try the type-detection read and keep None on failure; encode the value
(a ValueError there is caught, aborting before any send); then build
the Write Tag request, wrap it for routing, send it and parse the
reply. -/
def logix_write (st : LogixState) (transport : List Nat → Option (List Nat))
    (tag_bytes : List Nat) (value : PyValue) (data_type : Option Nat)
    (auto_detect : Bool) : LogixWriteOutcome :=
  if st.connected = false then ⟨false, none⟩
  else
    let dt : Option Nat :=
      if data_type = none ∧ auto_detect = true then
        match logix_read_type st transport tag_bytes with
        | some t => some t
        | none => none
      else data_type
    match encode_value value dt with
    | .error _ => ⟨false, none⟩
    | .ok (encoded, auto_type) =>
      let cip_data := wrap_with_routing st (write_tag_command tag_bytes auto_type encoded)
      ⟨(match logix_send_rr_data st transport cip_data with
        | some resp => parse_write_response resp
        | none => false), some cip_data⟩

/-! Concrete fixtures used by the closed theorems below. -/

/-- A connected SLC session right after a successful connect. -/
def slcConnected : SLCState :=
  { slcInit with connected := true, socketOpen := true, session_handle := 0x11223344 }

/-- Well-formed unconnected PCCC reply whose data is the single word w:
encapsulation header, CPF with one 0xB2 item, CIP status 0, PCCC reply
CMD 0x4F with STS 0, then the word. -/
def pcccDataResponse (w : Nat) : List Nat :=
  List.replicate 24 0 ++ [0, 0, 0, 0, 0, 0] ++ [1, 0]
    ++ [0xB2, 0, 10, 0] ++ [0xCF, 0, 0, 0] ++ [0x4F, 0, 0, 0] ++ u16le w

/-- Unconnected PCCC reply carrying STS = 0x10 after the reply CMD byte,
with CIP general status 0. -/
def sts_error_response : List Nat :=
  List.replicate 24 0 ++ [0, 0, 0, 0, 0, 0] ++ [1, 0]
    ++ [0xB2, 0, 10, 0] ++ [0xCF, 0, 0, 0] ++ [0x4F, 0, 0, 0x10] ++ [0x34, 0x12]

/-- A 28-byte Register Session reply with command 0x0066 and status 7:
not a successful registration by the spec's criterion. -/
def bad_logix_reply : List Nat :=
  u16le 0x66 ++ u16le 4 ++ u32le 0xCAFEBABE ++ u32le 7 ++ List.replicate 16 0

/-- A well-formed successful Register Session reply for the SLC driver. -/
def good_slc_reply : List Nat :=
  u16le 0x65 ++ u16le 4 ++ u32le 0x12345678 ++ u32le 0 ++ List.replicate 16 0

/-- A well-formed successful Register Session reply for the Logix driver. -/
def good_logix_reply : List Nat :=
  u16le 0x65 ++ u16le 4 ++ u32le 0xDEADBEEF ++ u32le 0 ++ List.replicate 16 0

/-- Connected Logix session routing through backplane slot 3. -/
def routedState3 : LogixState :=
  { slot := 3, use_routing := true, session_handle := 0x55667788,
    connected := true, socketOpen := true }

/-- Connected Logix session without routing. -/
def unroutedConn : LogixState :=
  { slot := 0, use_routing := false, session_handle := 0x55667788,
    connected := true, socketOpen := true }

/-- ASCII bytes of the tag name Counter. -/
def counterTag : List Nat := [0x43, 0x6F, 0x75, 0x6E, 0x74, 0x65, 0x72]

/-- Direct (unrouted) Read Tag reply: service 0xCC, status 0, data type
0xC3 (INT), value bytes 2A 00. -/
def direct_int_reply : List Nat :=
  List.replicate 24 0 ++ [0, 0, 0, 0, 0, 0] ++ [1, 0]
    ++ [0xB2, 0, 8, 0] ++ [0xCC, 0, 0, 0] ++ [0xC3, 0] ++ [0x2A, 0]

/-! Theorems settling the claims. -/

/-- C1 (code_bug): SLC.write with a bit number never performs the claimed
read-modify-write and never transmits anything: the source calls
self.read_tag, a method the SLC class does not define (its read method
is named read), so the handler catches the AttributeError and returns
False.  At the claim's example, although the transport would answer
every read with the current word 0x0001 (second conjunct: the read path
decodes that reply to 1), the bit write returns False, leaves the state
untouched and transmits nothing instead of a write with data word
0x0009. -/
theorem c1_bit_write_broken :
    slc_write slcConnected (fun _ => some (pcccDataResponse 1)) FileType.B3 0 1 (some 3)
      = ⟨false, slcConnected, none⟩
  ∧ (slc_read slcConnected (fun _ => some (pcccDataResponse 1)) FileType.B3 0 none 1).value
      = some 1 := by
  constructor <;> rfl

/-- C2 (confirmed): every PCCC write command places, after the u16
element number, the mask word 0xFFFF and then the data word, both
little-endian, and a negative N7 value v in 16-bit range is transmitted
as v + 65536, while any non-negative 16-bit value is transmitted as
itself. -/
theorem c2_mask_before_data (st : SLCState) (ft : FileType) (fn el : Nat) (v : Int) :
    (create_pccc_write_command st ft fn el v).1
      = ([0x4B, 0x02, 0x20, 0x67, 0x24, 0x01, 0x07, 0x09, 0x10]
          ++ u32le st.serial_number ++ [0x0F] ++ u16le st.pccc_tns
          ++ [0x00, 0xAB, PCCC_DATA_SIZE ft, fn, PCCC_DATA_TYPE ft] ++ u16le el)
        ++ u16le 0xFFFF ++ u16le (write_data_word ft v)
  ∧ (ft = FileType.N7 → -32768 ≤ v → v < 0 → write_data_word ft v = (v + 65536).toNat)
  ∧ (0 ≤ v → v ≤ 65535 → write_data_word ft v = v.toNat) := by
  refine ⟨?_, ?_, ?_⟩
  · simp [create_pccc_write_command, List.append_assoc]
  · intro h1 h2 h3
    subst h1
    simp only [write_data_word, true_and]
    rw [if_pos h3]
    omega
  · intro h1 h2
    simp only [write_data_word]
    split_ifs with h
    · exact absurd h.2 (by omega)
    · omega

/-- Witness for c2_mask_before_data at the concrete input v = -1. -/
theorem c2_mask_before_data_witness :
    (-32768 : Int) ≤ -1 ∧ (-1 : Int) < 0
  ∧ write_data_word FileType.N7 (-1) = ((-1 : Int) + 65536).toNat := by
  have h := c2_mask_before_data slcInit FileType.N7 7 0 (-1)
  exact ⟨by decide, by decide, h.2.1 rfl (by decide) (by decide)⟩

/-- C3 (confirmed): for every signed 16-bit v, the data word the write
command transmits for N7 (its last two bytes, second conjunct) decodes
back to exactly v under the read path's reinterpretation of words of at
least 32768 as word - 65536. -/
theorem c3_n7_roundtrip (v : Int) (h1 : -32768 ≤ v) (h2 : v ≤ 32767) :
    read_word_value FileType.N7 (write_data_word FileType.N7 v) = v
  ∧ (create_pccc_write_command slcInit FileType.N7 7 0 v).1.drop 25
      = u16le (write_data_word FileType.N7 v) := by
  constructor
  · simp only [read_word_value, write_data_word, true_and]
    split_ifs with hA hB hB <;> omega
  · rfl

/-- Witness for c3_n7_roundtrip at the concrete input v = -123. -/
theorem c3_n7_roundtrip_witness :
    read_word_value FileType.N7 (write_data_word FileType.N7 (-123)) = -123 := by
  exact (c3_n7_roundtrip (-123) (by decide) (by decide)).1

/-- Optional indexing succeeds exactly within the list length. -/
theorem getElem_isSome_len {l : List Nat} {i : Nat} : l[i]?.isSome ↔ i < l.length := by
  rw [Option.isSome_iff_ne_none, ne_eq, List.getElem?_eq_none_iff]
  omega

/-- Decoding a u16 slice succeeds exactly when it fits in the list. -/
theorem u16leAt_isSome {l : List Nat} {i : Nat} :
    (u16leAt l i).isSome ↔ i + 2 ≤ l.length := by
  unfold u16leAt
  by_cases h : i + 2 ≤ l.length
  · obtain ⟨a, ha⟩ := Option.isSome_iff_exists.1 (getElem_isSome_len.2 (by omega : i < l.length))
    obtain ⟨b, hb⟩ := Option.isSome_iff_exists.1 (getElem_isSome_len.2 (by omega : i + 1 < l.length))
    simp [ha, hb, h]
  · have h1 : l[i+1]? = none := List.getElem?_eq_none_iff.2 (by omega)
    rcases h0 : l[i]? with _ | a <;> simp [h0, h1, h]

/-- Decoding a u32 slice succeeds exactly when it fits in the list. -/
theorem u32leAt_isSome {l : List Nat} {i : Nat} :
    (u32leAt l i).isSome ↔ i + 4 ≤ l.length := by
  unfold u32leAt
  by_cases h : i + 4 ≤ l.length
  · obtain ⟨a, ha⟩ := Option.isSome_iff_exists.1 (getElem_isSome_len.2 (by omega : i < l.length))
    obtain ⟨b, hb⟩ := Option.isSome_iff_exists.1 (getElem_isSome_len.2 (by omega : i + 1 < l.length))
    obtain ⟨c, hc⟩ := Option.isSome_iff_exists.1 (getElem_isSome_len.2 (by omega : i + 2 < l.length))
    obtain ⟨d, hd⟩ := Option.isSome_iff_exists.1 (getElem_isSome_len.2 (by omega : i + 3 < l.length))
    simp [ha, hb, hc, hd, h]
  · have h3 : l[i+3]? = none := List.getElem?_eq_none_iff.2 (by omega)
    rcases h0 : l[i]? with _ | a <;> rcases h1 : l[i+1]? with _ | b <;>
      rcases h2 : l[i+2]? with _ | c <;> simp [h0, h1, h2, h3, h]

/-- C4 (counterexample): a 28-byte Register Session reply whose command is
0x0066 and whose status is 7 is nevertheless accepted by the Logix
driver, which latches the handle, so the claimed iff fails for Logix. -/
theorem c4_register_session_counterexample :
    logix_register_session bad_logix_reply = some 0xCAFEBABE
  ∧ u16leAt bad_logix_reply 0 = some 0x66
  ∧ u32leAt bad_logix_reply 8 = some 7 := by
  refine ⟨rfl, rfl, rfl⟩

/-- C4 (amended): the SLC driver accepts a Register Session reply exactly
when it has at least 12 bytes, command 0x0065 and status 0, latching the
handle from bytes 4..7; the Logix driver accepts exactly the replies of
at least 28 bytes, latching the handle without checking command or
status. -/
theorem c4_register_session_amended :
    (∀ resp : List Nat, (slc_register_session resp).isSome ↔
        (12 ≤ resp.length ∧ u16leAt resp 0 = some 0x65 ∧ u32leAt resp 8 = some 0))
  ∧ (∀ (resp : List Nat) (h : Nat), slc_register_session resp = some h →
        u32leAt resp 4 = some h)
  ∧ (∀ resp : List Nat, (logix_register_session resp).isSome ↔ 28 ≤ resp.length)
  ∧ (∀ (resp : List Nat) (h : Nat), logix_register_session resp = some h →
        u32leAt resp 4 = some h) := by
  refine ⟨?_, ?_, ?_, ?_⟩
  · intro resp
    unfold slc_register_session
    constructor
    · intro hs
      by_cases hl : 8 ≤ resp.length
      · rw [if_pos hl] at hs
        rcases h0 : u16leAt resp 0 with _ | command
        · simp [h0] at hs
        rcases h1 : u32leAt resp 8 with _ | status
        · simp [h0, h1] at hs
        simp only [h0, h1] at hs
        by_cases hc : command = 0x65 ∧ status = 0
        · obtain ⟨hcmd, hst⟩ := hc
          subst hcmd
          subst hst
          have hlen : 8 + 4 ≤ resp.length := u32leAt_isSome.1 (by rw [h1]; rfl)
          exact ⟨by omega, rfl, rfl⟩
        · simp [hc] at hs
      · rw [if_neg hl] at hs
        simp at hs
    · rintro ⟨hlen, h0, h1⟩
      rw [if_pos (by omega)]
      rw [h0, h1]
      simp only [show (0x65 = 0x65 ∧ (0 : Nat) = 0) from ⟨rfl, rfl⟩, if_pos]
      exact u32leAt_isSome.2 (by omega)
  · intro resp h hsome
    unfold slc_register_session at hsome
    by_cases hl : 8 ≤ resp.length
    · rw [if_pos hl] at hsome
      rcases h0 : u16leAt resp 0 with _ | command
      · simp [h0] at hsome
      rcases h1 : u32leAt resp 8 with _ | status
      · simp [h0, h1] at hsome
      simp only [h0, h1] at hsome
      by_cases hc : command = 0x65 ∧ status = 0
      · rw [if_pos hc] at hsome
        exact hsome
      · rw [if_neg hc] at hsome
        exact absurd hsome (by simp)
    · rw [if_neg hl] at hsome
      exact absurd hsome (by simp)
  · intro resp
    unfold logix_register_session
    by_cases hl : 28 ≤ resp.length
    · rw [if_pos hl]
      simp only [hl, iff_true]
      exact u32leAt_isSome.2 (by omega)
    · rw [if_neg hl]
      simp [hl]
  · intro resp h hsome
    unfold logix_register_session at hsome
    by_cases hl : 28 ≤ resp.length
    · rw [if_pos hl] at hsome
      exact hsome
    · rw [if_neg hl] at hsome
      exact absurd hsome (by simp)

/-- Witness for c4_register_session_amended at concrete good replies. -/
theorem c4_register_session_amended_witness :
    u32leAt good_slc_reply 4 = some 0x12345678
  ∧ u32leAt good_logix_reply 4 = some 0xDEADBEEF := by
  have h := c4_register_session_amended
  exact ⟨h.2.1 good_slc_reply 0x12345678 (by decide),
         h.2.2.2 good_logix_reply 0xDEADBEEF (by decide)⟩

/-- C5 (counterexample): on a reply whose PCCC STS byte is 0x10 (third
conjunct shows the byte; second shows the parser rejects the reply),
SLC.write still returns True, against the claim that it returns
false. -/
theorem c5_sts_error_counterexample :
    (slc_write slcConnected (fun _ => some sts_error_response) FileType.N7 0 5 none).ok = true
  ∧ parse_pccc_response sts_error_response = none
  ∧ sts_error_response[43]? = some 0x10 := by
  refine ⟨rfl, rfl, rfl⟩

/-- C5 (amended): on any reply the PCCC parser rejects (in particular one
with STS or CIP status non-zero), SLC.read returns None and the session
stays intact (connected stays true, the socket is untouched); SLC.write
however returns True whenever any reply of at least 24 bytes arrives,
regardless of its STS, and likewise leaves the session intact. -/
theorem c5_pccc_error_amended (st : SLCState) (ft : FileType) (el : Nat) (v : Int)
    (bit : Option Nat) (resp : List Nat) (hc : st.connected = true) :
    (parse_pccc_response resp = none →
      (slc_read st (fun _ => some resp) ft el bit 1).value = none)
  ∧ ((slc_read st (fun _ => some resp) ft el bit 1).state.connected = true
      ∧ (slc_read st (fun _ => some resp) ft el bit 1).state.socketOpen = st.socketOpen)
  ∧ (24 ≤ resp.length → (slc_write st (fun _ => some resp) ft el v none).ok = true)
  ∧ ((slc_write st (fun _ => some resp) ft el v none).state.connected = true
      ∧ (slc_write st (fun _ => some resp) ft el v none).state.socketOpen = st.socketOpen) := by
  have hcf : ¬ st.connected = false := by simp [hc]
  refine ⟨?_, ?_, ?_, ?_⟩
  · intro hp
    unfold slc_read
    rw [if_neg hcf]
    by_cases hl : 24 ≤ resp.length
    · simp [slc_read_value, send_rr_data_pccc, hl, hp]
    · simp [slc_read_value, send_rr_data_pccc, hl]
  · unfold slc_read
    rw [if_neg hcf]
    exact ⟨by simp [create_pccc_command, hc], by simp [create_pccc_command]⟩
  · intro hl
    unfold slc_write
    rw [if_neg hcf]
    simp [send_rr_data_pccc, hl]
  · unfold slc_write
    rw [if_neg hcf]
    exact ⟨by simp [create_pccc_write_command, hc], by simp [create_pccc_write_command]⟩

/-- Witness for c5_pccc_error_amended at the STS = 0x10 reply. -/
theorem c5_pccc_error_amended_witness :
    (slc_read slcConnected (fun _ => some sts_error_response) FileType.N7 0 none 1).value = none
  ∧ (slc_write slcConnected (fun _ => some sts_error_response) FileType.N7 0 5 none).ok = true := by
  have h := c5_pccc_error_amended slcConnected FileType.N7 0 5 none sts_error_response rfl
  exact ⟨h.1 rfl, h.2.2.1 (by decide)⟩

/-- C6 (counterexample): for an odd-length inner command the routing
wrapper of the code does not contain the pad byte the claim describes:
the route path follows the inner byte immediately. -/
theorem c6_no_pad_counterexample :
    wrap_with_routing routedState3 [0x4C] ≠ spec_routing_wrapper 3 [0x4C]
  ∧ wrap_with_routing routedState3 [0x4C]
      = [0x52, 0x02, 0x20, 0x06, 0x24, 0x01, 0x0A, 0x05, 1, 0, 0x4C,
         0x01, 0x00, 0x20, 0x02, 0x24, 3] := by
  exact ⟨by decide, rfl⟩

/-- C6 (amended): with routing enabled the wrapper is the Unconnected
Send header, the u16 inner length, the inner bytes, and the route path
to the slot, with no pad byte ever inserted; for even inner length this
coincides with the spec's wrapper, while for odd inner length it always
differs from it - and driver-built traffic does hit the odd case, since
the Write Tag command for a 1-byte type such as BOOL has odd length
(fourth conjunct).  The routed read of tag Counter at slot 3 starts with
52 02 20 06 24 01 0A 05 followed by the length 14 and ends with the
route tail 01 00 20 02 24 03. -/
theorem c6_routing_wrapper_amended (st : LogixState) (inner : List Nat)
    (hr : st.use_routing = true) :
    wrap_with_routing st inner
      = [0x52, 0x02, 0x20, 0x06, 0x24, 0x01, 0x0A, 0x05]
          ++ u16le inner.length ++ inner ++ [0x01, 0x00, 0x20, 0x02, 0x24, st.slot]
  ∧ (inner.length % 2 = 0 → wrap_with_routing st inner = spec_routing_wrapper st.slot inner)
  ∧ (inner.length % 2 = 1 → wrap_with_routing st inner ≠ spec_routing_wrapper st.slot inner)
  ∧ (write_tag_command counterTag 0xC1 [1]).length % 2 = 1
  ∧ (logix_read_request routedState3 counterTag 1).take 9
      = [0x52, 0x02, 0x20, 0x06, 0x24, 0x01, 0x0A, 0x05, 14]
  ∧ (logix_read_request routedState3 counterTag 1).drop 24
      = [0x01, 0x00, 0x20, 0x02, 0x24, 0x03] := by
  have hrf : ¬ st.use_routing = false := by simp [hr]
  refine ⟨?_, ?_, ?_, ?_, ?_, ?_⟩
  · unfold wrap_with_routing
    rw [if_neg hrf]
  · intro he
    unfold wrap_with_routing spec_routing_wrapper
    rw [if_neg hrf]
    rw [if_neg (by omega : ¬ inner.length % 2 = 1)]
    simp
  · intro ho heq
    have hlen := congrArg List.length heq
    simp [wrap_with_routing, spec_routing_wrapper, hrf, ho, u16le] at hlen
  · rfl
  · rfl
  · rfl

/-- Witness for c6_routing_wrapper_amended: the even case coincides with
the spec's wrapper; the odd case - here the driver's own routed BOOL
Write Tag command - differs from it. -/
theorem c6_routing_wrapper_amended_witness :
    wrap_with_routing routedState3 [0x4C, 0x00] = spec_routing_wrapper 3 [0x4C, 0x00]
  ∧ wrap_with_routing routedState3 (write_tag_command counterTag 0xC1 [1])
      ≠ spec_routing_wrapper 3 (write_tag_command counterTag 0xC1 [1]) := by
  have h1 := c6_routing_wrapper_amended routedState3 [0x4C, 0x00] rfl
  have h2 := c6_routing_wrapper_amended routedState3 (write_tag_command counterTag 0xC1 [1]) rfl
  exact ⟨h1.2.1 (by decide), h2.2.2.1 (by decide)⟩

/-- C7 (confirmed): the session starts with pccc_tns = 1; both the read
and the write builder embed the current TNS at bytes 14..15 of the
request and step the counter to (tns + 1) mod 65536, and the step
happens even when the subsequent transmission fails; hence the TNS of
the k-th request of a session is (1 + k) mod 65536 and within any
window of fewer than 65536 requests no value repeats. -/
theorem c7_tns_discipline :
    slcInit.pccc_tns = 1
  ∧ (∀ (st : SLCState) (ft : FileType) (fn el ct : Nat),
        (create_pccc_command st ft fn el ct).2.pccc_tns = (st.pccc_tns + 1) % 65536
      ∧ ((create_pccc_command st ft fn el ct).1.drop 14).take 2 = u16le st.pccc_tns)
  ∧ (∀ (st : SLCState) (ft : FileType) (fn el : Nat) (v : Int),
        (create_pccc_write_command st ft fn el v).2.pccc_tns = (st.pccc_tns + 1) % 65536
      ∧ ((create_pccc_write_command st ft fn el v).1.drop 14).take 2 = u16le st.pccc_tns)
  ∧ (∀ (st : SLCState) (ft : FileType) (el ct : Nat) (bit : Option Nat),
        st.connected = true →
        (slc_read st (fun _ => none) ft el bit ct).state.pccc_tns
          = (st.pccc_tns + 1) % 65536)
  ∧ (∀ k, tnsUsed k = (1 + k) % 65536)
  ∧ (∀ i j, i < j → j < i + 65536 → tnsUsed i ≠ tnsUsed j) := by
  have hstep : ∀ st : SLCState, (slcStep st).pccc_tns = (st.pccc_tns + 1) % 65536 :=
    fun st => rfl
  have hused : ∀ k, tnsUsed k = (1 + k) % 65536 := by
    intro k
    induction k with
    | zero => rfl
    | succ n ih =>
      unfold tnsUsed at ih ⊢
      rw [Function.iterate_succ_apply', hstep, ih]
      omega
  refine ⟨rfl, ?_, ?_, ?_, hused, ?_⟩
  · intro st ft fn el ct
    exact ⟨rfl, rfl⟩
  · intro st ft fn el v
    exact ⟨rfl, rfl⟩
  · intro st ft el ct bit hc
    unfold slc_read
    rw [if_neg (by simp [hc])]
    rfl
  · intro i j hij hlt
    rw [hused, hused]
    omega

/-- Witness for c7_tns_discipline: one failed read advances the counter
of a fresh session from 1 to 2, and the first two requests carry
different TNS values. -/
theorem c7_tns_discipline_witness :
    (slc_read slcConnected (fun _ => none) FileType.N7 0 none 1).state.pccc_tns = 2
  ∧ tnsUsed 0 ≠ tnsUsed 1 := by
  have h := c7_tns_discipline
  constructor
  · have hr := h.2.2.2.1 slcConnected FileType.N7 0 1 none rfl
    simpa using hr
  · exact h.2.2.2.2.2 0 1 (by decide) (by decide)

/-- C8 (counterexample): after a transport failure during a read on a
connected session the driver does NOT transition to Closed: the session
stays connected and the socket stays open, against the claim. -/
theorem c8_transport_failure_counterexample :
    (slc_read slcConnected (fun _ => none) FileType.N7 0 none 1).value = none
  ∧ (slc_read slcConnected (fun _ => none) FileType.N7 0 none 1).state.connected = true
  ∧ (slc_read slcConnected (fun _ => none) FileType.N7 0 none 1).state.socketOpen = true := by
  refine ⟨rfl, rfl, rfl⟩

/-- C8 (amended): a socket send/receive failure or timeout during an
operational read or write only makes read return None and write return
False; the session is not invalidated: connected stays true and the
socket is not closed, so the caller may keep using the session without
reconnecting. -/
theorem c8_transport_failure_amended (st : SLCState) (ft : FileType) (el ct : Nat)
    (bit : Option Nat) (v : Int) (hc : st.connected = true) :
    ((slc_read st (fun _ => none) ft el bit ct).value = none
      ∧ (slc_read st (fun _ => none) ft el bit ct).state.connected = true
      ∧ (slc_read st (fun _ => none) ft el bit ct).state.socketOpen = st.socketOpen)
  ∧ ((slc_write st (fun _ => none) ft el v none).ok = false
      ∧ (slc_write st (fun _ => none) ft el v none).state.connected = true
      ∧ (slc_write st (fun _ => none) ft el v none).state.socketOpen = st.socketOpen) := by
  have hcf : ¬ st.connected = false := by simp [hc]
  constructor
  · unfold slc_read
    rw [if_neg hcf]
    exact ⟨rfl, by simp [create_pccc_command, hc], by simp [create_pccc_command]⟩
  · unfold slc_write
    rw [if_neg hcf]
    exact ⟨rfl, by simp [create_pccc_write_command, hc], by simp [create_pccc_write_command]⟩

/-- Witness for c8_transport_failure_amended at a concrete session. -/
theorem c8_transport_failure_amended_witness :
    (slc_write slcConnected (fun _ => none) FileType.B3 2 7 none).ok = false
  ∧ (slc_write slcConnected (fun _ => none) FileType.B3 2 7 none).state.connected = true := by
  have h := c8_transport_failure_amended slcConnected FileType.B3 2 1 none 7 rfl
  exact ⟨h.2.1, h.2.2.1⟩

/-- C9 (counterexample): Logix.decode_value returns None for the CIP
codes 0xC5 LINT, 0xC6 USINT, 0xC9 ULINT and 0xCB LREAL even with enough
value bytes present, against the claim that they decode per the atomic
type table. -/
theorem c9_decode_missing_types_counterexample :
    decode_value 0xC5 [1, 0, 0, 0, 0, 0, 0, 0] = none
  ∧ decode_value 0xC6 [7, 0, 0, 0, 0, 0, 0, 0] = none
  ∧ decode_value 0xC9 [2, 0, 0, 0, 0, 0, 0, 0] = none
  ∧ decode_value 0xCB [0, 0, 0, 0, 0, 0, 0, 0x3F] = none := by
  refine ⟨rfl, rfl, rfl, rfl⟩

/-- C9 (amended): decode_value supports exactly 0xC1 BOOL (non-zero byte
gives true), 0xC2 SINT as i8, 0xC3 INT as i16 LE, 0xC4 DINT as i32 LE,
0xC7 UINT as u16 LE, 0xC8 UDINT as u32 LE, and 0xCA REAL as a 4-byte LE
payload; every other code, including 0xC5 LINT, 0xC6 USINT, 0xC9 ULINT
and 0xCB LREAL, yields None.  The last conjunct shows the read path
returning a decoded INT value from a service 0xCC status 0 reply. -/
theorem c9_decode_value_amended :
    (∀ b rest, decode_value 0xC1 (b :: rest) = some (CipValue.bool (b % 256 ≠ 0)))
  ∧ (∀ b rest, decode_value 0xC2 (b :: rest)
      = some (CipValue.int (if 128 ≤ b % 256 then (b % 256 : Int) - 256 else (b % 256 : Int))))
  ∧ (∀ b0 b1 rest, decode_value 0xC3 (b0 :: b1 :: rest)
      = some (CipValue.int (if 32768 ≤ b0 % 256 + 256 * (b1 % 256)
          then (b0 % 256 + 256 * (b1 % 256) : Int) - 65536
          else (b0 % 256 + 256 * (b1 % 256) : Int))))
  ∧ (∀ b0 b1 b2 b3 rest, decode_value 0xC4 (b0 :: b1 :: b2 :: b3 :: rest)
      = some (CipValue.int
          (if 2147483648 ≤ b0 % 256 + 256 * (b1 % 256) + 65536 * (b2 % 256)
              + 16777216 * (b3 % 256)
           then (b0 % 256 + 256 * (b1 % 256) + 65536 * (b2 % 256)
              + 16777216 * (b3 % 256) : Int) - 4294967296
           else (b0 % 256 + 256 * (b1 % 256) + 65536 * (b2 % 256)
              + 16777216 * (b3 % 256) : Int))))
  ∧ (∀ b0 b1 rest, decode_value 0xC7 (b0 :: b1 :: rest)
      = some (CipValue.int ((b0 % 256 + 256 * (b1 % 256) : Nat) : Int)))
  ∧ (∀ b0 b1 b2 b3 rest, decode_value 0xC8 (b0 :: b1 :: b2 :: b3 :: rest)
      = some (CipValue.int ((b0 % 256 + 256 * (b1 % 256) + 65536 * (b2 % 256)
          + 16777216 * (b3 % 256) : Nat) : Int)))
  ∧ (∀ b0 b1 b2 b3 rest, decode_value 0xCA (b0 :: b1 :: b2 :: b3 :: rest)
      = some (CipValue.real (b0 % 256 + 256 * (b1 % 256) + 65536 * (b2 % 256)
          + 16777216 * (b3 % 256))))
  ∧ (∀ (t : Nat) (data : List Nat),
        t ∉ ([0xC1, 0xC2, 0xC3, 0xC4, 0xC7, 0xC8, 0xCA] : List Nat) →
        decode_value t data = none)
  ∧ parse_read_response direct_int_reply = some (CipValue.int 42) := by
  refine ⟨fun b rest => rfl, fun b rest => rfl, fun b0 b1 rest => rfl,
          fun b0 b1 b2 b3 rest => rfl, fun b0 b1 rest => rfl,
          fun b0 b1 b2 b3 rest => rfl, fun b0 b1 b2 b3 rest => rfl, ?_, rfl⟩
  intro t data ht
  simp only [List.mem_cons, List.not_mem_nil, or_false, not_or] at ht
  obtain ⟨h1, h2, h3, h4, h5, h6, h7⟩ := ht
  simp [decode_value, h1, h2, h3, h4, h5, h6, h7]

/-- Witness for c9_decode_value_amended at the unsupported code 0xD0. -/
theorem c9_decode_value_amended_witness :
    decode_value 0xD0 [1, 2, 3, 4] = none := by
  have h := c9_decode_value_amended
  exact h.2.2.2.2.2.2.2.1 0xD0 [1, 2, 3, 4] (by decide)

/-- C10 (confirmed): when Logix.write is called with no data_type and
auto_detect and the type-detection read fails, the write silently
proceeds with the default encoding chosen from the Python type of the
value: bool as BOOL 0xC1, int in signed 32-bit range as DINT 0xC4,
float as REAL 0xCA; nothing is transmitted and False is returned
exactly for an int outside the signed 32-bit range. -/
theorem c10_autodetect_fallback (st : LogixState) (tr : List Nat → Option (List Nat))
    (tag : List Nat) (value : PyValue) (hc : st.connected = true)
    (hdetect : logix_read_type st tr tag = none) :
    (∀ b : Bool, value = PyValue.bool b →
        (logix_write st tr tag value none true).transmitted
          = some (wrap_with_routing st (write_tag_command tag 0xC1 [if b then 1 else 0])))
  ∧ (∀ i : Int, value = PyValue.int i → -2147483648 ≤ i → i ≤ 2147483647 →
        (logix_write st tr tag value none true).transmitted
          = some (wrap_with_routing st (write_tag_command tag 0xC4 (i32le i))))
  ∧ (∀ bits : Nat, value = PyValue.float bits →
        (logix_write st tr tag value none true).transmitted
          = some (wrap_with_routing st (write_tag_command tag 0xCA (u32le bits))))
  ∧ (∀ i : Int, value = PyValue.int i → (i < -2147483648 ∨ 2147483647 < i) →
        (logix_write st tr tag value none true).ok = false
      ∧ (logix_write st tr tag value none true).transmitted = none)
  ∧ ((logix_write st tr tag value none true).transmitted = none →
        ∃ i : Int, value = PyValue.int i ∧ (i < -2147483648 ∨ 2147483647 < i)) := by
  have hcf : ¬ st.connected = false := by simp [hc]
  refine ⟨?_, ?_, ?_, ?_, ?_⟩
  · intro b hb
    subst hb
    unfold logix_write
    rw [if_neg hcf]
    simp [hdetect, encode_value]
  · intro i hi hlo hhi
    subst hi
    unfold logix_write
    rw [if_neg hcf]
    have henc : encode_value (PyValue.int i) none = .ok (i32le i, 0xC4) := by
      simp [encode_value, hlo, hhi]
    simp [hdetect, henc]
  · intro bits hb
    subst hb
    unfold logix_write
    rw [if_neg hcf]
    simp [hdetect, encode_value]
  · intro i hi hrange
    subst hi
    unfold logix_write
    rw [if_neg hcf]
    have hcond : ¬(-2147483648 ≤ i ∧ i ≤ 2147483647) := by
      rcases hrange with h | h <;> · intro hh; omega
    have henc : encode_value (PyValue.int i) none = .error () := by
      simp [encode_value, hcond]
    simp [hdetect, henc]
  · intro hnone
    cases value with
    | bool b =>
      unfold logix_write at hnone
      rw [if_neg hcf] at hnone
      simp [hdetect, encode_value] at hnone
    | float bits =>
      unfold logix_write at hnone
      rw [if_neg hcf] at hnone
      simp [hdetect, encode_value] at hnone
    | int i =>
      by_cases hr : -2147483648 ≤ i ∧ i ≤ 2147483647
      · exfalso
        unfold logix_write at hnone
        rw [if_neg hcf] at hnone
        have henc : encode_value (PyValue.int i) none = .ok (i32le i, 0xC4) := by
          simp [encode_value, hr.1, hr.2]
        simp [hdetect, henc] at hnone
      · exact ⟨i, rfl, by omega⟩

/-- Witness for c10_autodetect_fallback: a failed detection (transport
down) with value 5 still builds a DINT write request. -/
theorem c10_autodetect_fallback_witness :
    (logix_write unroutedConn (fun _ => none) [0x41] (PyValue.int 5) none true).transmitted
      = some (write_tag_command [0x41] 0xC4 (i32le 5)) := by
  have h := c10_autodetect_fallback unroutedConn (fun _ => none) [0x41] (PyValue.int 5) rfl rfl
  have h2 := h.2.1 5 rfl (by decide) (by decide)
  simpa [wrap_with_routing] using h2

end Upycomm
